import Mathlib

/-!
# Verification of the system-information aggregation module

Shallow embedding of `src/lib/systemInfo.ts`. JavaScript string-keyed
objects are modelled as insertion-ordered association lists
(`List (String × α)`), with property assignment `setKey` (update in place
when the key exists, append otherwise — JS objects preserve insertion
order) and property read `lookupKey`. Fallible OS facilities are modelled
as `Except String` values carried in an explicit environment record per
reader; the `catch (error) { return { Error: String(error) } }` boundary
becomes a `match` on those values, the error message standing for the
stringified exception. JS numbers feeding `toFixed(2)` are modelled as
exact rationals (`ℚ`); `toFixed2` below implements the ECMAScript
rounding rule (nearest, ties toward the larger candidate). Rational
division is total with `x / 0 = 0` where IEEE arithmetic would give NaN;
no property below exercises a zero divisor.
-/

/-- JS object property read: `obj[k]`, `none` when the key is absent. -/
def lookupKey {α : Type} : List (String × α) → String → Option α
  | [], _ => none
  | (k', v) :: rest, k => if k' = k then some v else lookupKey rest k

/-- JS object property assignment `obj[k] = v`: update in place if the key
exists, append otherwise (JS objects keep insertion order). -/
def setKey {α : Type} : List (String × α) → String → α → List (String × α)
  | [], k, v => [(k, v)]
  | (k', v') :: rest, k, v =>
    if k' = k then (k, v) :: rest else (k', v') :: setKey rest k v

/-- JS truthiness of a possibly-absent string property: `undefined` and the
empty string are falsy, every other string is truthy. -/
def truthyStr (o : Option String) : Prop := o.getD "" ≠ ""

instance (o : Option String) : Decidable (truthyStr o) := by
  unfold truthyStr; infer_instance

/-- `Number.prototype.toFixed(2)` on an exact rational: pick the integer
`n` with `n / 100` nearest the value, ties to the larger `n`
(`⌊100 q + 1/2⌋`), and print it with two digits after the point. -/
def pad2 (r : Nat) : String :=
  if r < 10 then "0" ++ toString r else toString r

def fmt2 (n : Int) : String :=
  if n < 0 then "-" ++ toString (n.natAbs / 100) ++ "." ++ pad2 (n.natAbs % 100)
  else toString (n.toNat / 100) ++ "." ++ pad2 (n.toNat % 100)

/-- Floor of a rational, written on the `num`/`den` representation
(Euclidean division by the positive denominator) so that it evaluates by
kernel reduction. -/
def ratFloor (q : ℚ) : ℤ := q.num / q.den

def toFixed2 (q : ℚ) : String := fmt2 (ratFloor (q * 100 + 1/2))

/-! ## Data model: OS facility environments -/

/-- One entry of `os.cpus()`. Only the `model` field is read. -/
structure Cpu where
  model : String
deriving DecidableEq

/-- Result of `si.mem()`: byte counts. -/
structure MemStats where
  total : ℚ
  used : ℚ
deriving DecidableEq

/-- One entry of `si.fsSize()`. -/
structure DiskStats where
  size : ℚ
  used : ℚ
  use : ℚ
deriving DecidableEq

/-- One entry of an `os.networkInterfaces()` address list. -/
structure NetAddr where
  family : String
  address : String
deriving DecidableEq

/-- OS facilities read by `getSystemResources`. The three awaited queries
can reject; `os.cpus()` is synchronous and non-throwing. -/
structure ResEnv where
  currentLoad : Except String ℚ
  cpus : List Cpu
  mem : Except String MemStats
  fsSize : Except String (List DiskStats)

/-- OS facilities read by `getNetworkInfo`; both calls sit inside the
`try` block. An interface's address list may be `undefined`. -/
structure NetEnv where
  hostname : Except String String
  interfaces : Except String (List (String × Option (List NetAddr)))

/-- OS facilities read by `getPlatformInfo` (all synchronous, total). -/
structure PlatEnv where
  osType : String
  osRelease : String
  osVersion : String
  osArch : String
  cpus : List Cpu
  nodeVersion : String

/-! ## The readers -/

/-- `getSystemResources`: awaits `si.currentLoad()`, reads
`os.cpus().length`, awaits `si.mem()` and `si.fsSize()`; the first
rejection is caught at the function boundary and returned as the
single-key map `{ Error: String(error) }`. `disks[0] || {size:0,used:0,use:0}`
is the head of the list with a zero default. -/
def getSystemResources (e : ResEnv) : List (String × String) :=
  match e.currentLoad with
  | .error err => [("Error", err)]
  | .ok cpuLoad =>
    let cpuCount := e.cpus.length
    match e.mem with
    | .error err => [("Error", err)]
    | .ok mem =>
      match e.fsSize with
      | .error err => [("Error", err)]
      | .ok disks =>
        let mainDisk := disks.headD ⟨0, 0, 0⟩
        [("CPU Usage", toFixed2 cpuLoad ++ "%"),
         ("CPU Count", toString cpuCount),
         ("Memory Total", toFixed2 (mem.total / 1024 ^ 3) ++ " GB"),
         ("Memory Used", toFixed2 (mem.used / 1024 ^ 3) ++ " GB"),
         ("Memory Percent", toFixed2 (mem.used / mem.total * 100) ++ "%"),
         ("Disk Total", toFixed2 (mainDisk.size / 1024 ^ 3) ++ " GB"),
         ("Disk Used", toFixed2 (mainDisk.used / 1024 ^ 3) ++ " GB"),
         ("Disk Percent", toFixed2 mainDisk.use ++ "%")]

/-- The conditional `networkInfo['IP Address'] = addr.address` of
`getNetworkInfo`: assign only when the entry is still falsy and the
address is not the loopback literal. -/
def addrIpStep (m : List (String × String)) (address : String) :
    List (String × String) :=
  if ¬ truthyStr (lookupKey m "IP Address") ∧ address ≠ "127.0.0.1" then
    setKey m "IP Address" address
  else m

/-- Body of the inner `for (const addr of addrs)` loop of
`getNetworkInfo`: record `Interface <name>` for every IPv4 address, then
run the conditional `IP Address` assignment. -/
def addrStep (name : String) (m : List (String × String)) (a : NetAddr) :
    List (String × String) :=
  if a.family = "IPv4" then
    addrIpStep (setKey m ("Interface " ++ name) a.address) a.address
  else m

/-- Body of the outer `for (const [name, addrs] of Object.entries(...))`
loop: skip interfaces whose address list is `undefined`. -/
def ifaceStep (m : List (String × String)) (entry : String × Option (List NetAddr)) :
    List (String × String) :=
  match entry.2 with
  | none => m
  | some addrs => addrs.foldl (addrStep entry.1) m

/-- `getNetworkInfo`: hostname doubles as `Hostname` and `FQDN`, the
interface loops run, and a final falsiness check defaults `IP Address` to
`127.0.0.1`. Any error from the two OS calls is caught at the boundary
and returned as `{ Error: String(error) }`. -/
def getNetworkInfo (e : NetEnv) : List (String × String) :=
  match e.hostname with
  | .error err => [("Error", err)]
  | .ok host =>
    match e.interfaces with
    | .error err => [("Error", err)]
    | .ok ifs =>
      let m0 := [("Hostname", host), ("FQDN", host)]
      let m := ifs.foldl ifaceStep m0
      if ¬ truthyStr (lookupKey m "IP Address") then
        setKey m "IP Address" "127.0.0.1"
      else m

/-- `getPlatformInfo`: fixed seven keys; `os.cpus()[0]?.model || 'N/A'`
falls back to `"N/A"` when the CPU list is empty or the model string is
empty (JS `||` on a falsy string). -/
def getPlatformInfo (e : PlatEnv) : List (String × String) :=
  [("Platform", e.osType ++ " " ++ e.osRelease),
   ("System", e.osType),
   ("Release", e.osRelease),
   ("Version", e.osVersion),
   ("Machine", e.osArch),
   ("Processor",
     match e.cpus.head? with
     | some c => if c.model = "" then "N/A" else c.model
     | none => "N/A"),
   ("Node.js Version", e.nodeVersion)]

/-- The fixed `k8sVars` allowlist, in `Object.entries` order
(insertion order of the literal). -/
def k8sVars : List (String × String) :=
  [("KUBERNETES_SERVICE_HOST", "Kubernetes Service Host"),
   ("KUBERNETES_SERVICE_PORT", "Kubernetes Service Port"),
   ("HOSTNAME", "Pod Hostname"),
   ("POD_NAME", "Pod Name"),
   ("POD_NAMESPACE", "Pod Namespace"),
   ("POD_IP", "Pod IP"),
   ("NODE_NAME", "Node Name"),
   ("SERVICE_ACCOUNT", "Service Account")]

/-- The `for (const [envVar, label] of Object.entries(k8sVars))` loop of
`getKubernetesMetadata`: copy each allowlisted environment variable that
is set and truthy (non-empty) under its label. -/
def k8sScan (env : List (String × String)) : List (String × String) :=
  k8sVars.foldl (fun acc p =>
    match lookupKey env p.1 with
    | some v => if v ≠ "" then setKey acc p.2 v else acc
    | none => acc) []

/-- `getKubernetesMetadata`: run the allowlist scan, add the
`In Kubernetes` presence field from the filesystem marker check, and
return `null` only if the map ended up empty. `env` is the
`process.env` table, `secretsDirExists` the result of
`fs.existsSync('/var/run/secrets/kubernetes.io')`. -/
def getKubernetesMetadata (env : List (String × String)) (secretsDirExists : Bool) :
    Option (List (String × String)) :=
  let k8sInfo := setKey (k8sScan env) "In Kubernetes"
    (if secretsDirExists then "Yes" else "No")
  if k8sInfo.length > 0 then some k8sInfo else none

/-! ## Network reader: address selection -/

def firstGoodInList : List NetAddr → Option String
  | [] => none
  | a :: rest =>
    if a.family = "IPv4" ∧ a.address ≠ "127.0.0.1" ∧ a.address ≠ "" then some a.address
    else firstGoodInList rest

def firstGoodIPv4 : List (String × Option (List NetAddr)) → Option String
  | [] => none
  | (_, none) :: rest => firstGoodIPv4 rest
  | (_, some addrs) :: rest =>
    match firstGoodInList addrs with
    | some s => some s
    | none => firstGoodIPv4 rest

def firstNonLoopbackInList : List NetAddr → Option String
  | [] => none
  | a :: rest =>
    if a.family = "IPv4" ∧ a.address ≠ "127.0.0.1" then some a.address
    else firstNonLoopbackInList rest

def firstNonLoopbackIPv4 : List (String × Option (List NetAddr)) → Option String
  | [] => none
  | (_, none) :: rest => firstNonLoopbackIPv4 rest
  | (_, some addrs) :: rest =>
    match firstNonLoopbackInList addrs with
    | some s => some s
    | none => firstNonLoopbackIPv4 rest

/-! ## Request reader and aggregator -/

/-- A value of the `Record<string, any>` returned by `getRequestInfo`:
either a string or a nested string map (the `Headers` entry). -/
inductive JVal where
  | str : String → JVal
  | obj : List (String × String) → JVal
deriving DecidableEq

/-- The inbound request: method, the `pathname` of `new URL(request.url)`
(URL parsing is a platform facility, modelled pre-parsed), and the
`Headers` object as its list of unique lowercased key/value pairs. -/
structure Request where
  method : String
  pathname : String
  headers : List (String × String)
deriving DecidableEq

/-- `request.headers.get(k)`: `null` when absent. -/
def headersGet (hs : List (String × String)) (k : String) : Option String :=
  lookupKey hs k

/-- JS `x || 'N/A'` on a nullable string: `null` and `""` are falsy. -/
def orNA (o : Option String) : String :=
  match o with
  | some v => if v = "" then "N/A" else v
  | none => "N/A"

/-- `getRequestInfo`: the five fixed request fields; the headers map is
copied verbatim (`request.headers.forEach`), absent forwarded-for or
user-agent headers yield `"N/A"`. -/
def getRequestInfo (r : Request) : List (String × JVal) :=
  [("Method", .str r.method),
   ("Path", .str r.pathname),
   ("Remote Address", .str (orNA (headersGet r.headers "x-forwarded-for"))),
   ("User Agent", .str (orNA (headersGet r.headers "user-agent"))),
   ("Headers", .obj r.headers)]

/-- The `SystemInfo` record assembled by `getAllInfo`. -/
structure SystemInfo where
  timestamp : String
  hostname : String
  platform : List (String × String)
  environment : List (String × String)
  kubernetes : Option (List (String × String))
  resources : List (String × String)
  network : List (String × String)
  request : Option (List (String × JVal))

/-- Ambient process and OS state for one aggregation call: the wall-clock
timestamp, `os.hostname()`, the per-reader facility environments, the
`process.env` table and the secrets-directory marker. -/
structure World where
  now : String
  host : String
  res : ResEnv
  net : NetEnv
  plat : PlatEnv
  env : List (String × String)
  secretsDirExists : Bool

/-- `getAllInfo`: compose every reader into one snapshot; the `request`
field is attached only when a request value was supplied
(`if (request) { info.request = getRequestInfo(request); }`). -/
def getAllInfo (w : World) (request : Option Request) : SystemInfo :=
  { timestamp := w.now
    hostname := w.host
    platform := getPlatformInfo w.plat
    environment := w.env
    kubernetes := getKubernetesMetadata w.env w.secretsDirExists
    resources := getSystemResources w.res
    network := getNetworkInfo w.net
    request := request.map getRequestInfo }

/-! ## Basic lemmas about the object operations -/

theorem lookupKey_setKey_self {α : Type} (m : List (String × α)) (k : String) (v : α) :
    lookupKey (setKey m k v) k = some v := by
  induction m with
  | nil => simp [setKey, lookupKey]
  | cons p rest ih =>
    obtain ⟨k', v'⟩ := p
    by_cases h : k' = k
    · simp [setKey, lookupKey, h]
    · simp [setKey, lookupKey, h, ih]

theorem lookupKey_setKey_ne {α : Type} (m : List (String × α)) {k k' : String} (v : α)
    (h : k' ≠ k) : lookupKey (setKey m k' v) k = lookupKey m k := by
  induction m with
  | nil => simp [setKey, lookupKey, h]
  | cons p rest ih =>
    obtain ⟨k₀, v₀⟩ := p
    by_cases h0 : k₀ = k'
    · simp [setKey, lookupKey, h0, h]
    · simp [setKey, lookupKey, h0, ih]

theorem setKey_ne_nil {α : Type} (m : List (String × α)) (k : String) (v : α) :
    setKey m k v ≠ [] := by
  cases m with
  | nil => simp [setKey]
  | cons p rest =>
    obtain ⟨k', v'⟩ := p
    by_cases h : k' = k <;> simp [setKey, h]

theorem ratFloor_eq (q : ℚ) : ratFloor q = ⌊q⌋ := Rat.floor_def.symm

theorem toFixed2_eq_fmt2 (q : ℚ) (n : ℤ) (h : ⌊q * 100 + 1/2⌋ = n) :
    toFixed2 q = fmt2 n := by
  unfold toFixed2; rw [ratFloor_eq, h]

theorem toFixed2_zero : toFixed2 0 = "0.00" :=
  (toFixed2_eq_fmt2 0 0 (by norm_num)).trans (by decide)

theorem toFixed2_4GiB : toFixed2 ((4 * 2^30 : ℚ) / 1024 ^ 3) = "4.00" :=
  (toFixed2_eq_fmt2 _ 400 (by norm_num)).trans (by decide)

theorem toFixed2_half : toFixed2 ((4 * 2^30 : ℚ) / (8 * 2^30) * 100) = "50.00" :=
  (toFixed2_eq_fmt2 _ 5000 (by norm_num)).trans (by decide)

theorem firstGoodInList_ne_empty (l : List NetAddr) (s : String)
    (h : firstGoodInList l = some s) : s ≠ "" := by
  induction l with
  | nil => simp [firstGoodInList] at h
  | cons a rest ih =>
    unfold firstGoodInList at h
    split at h
    · next hc =>
      injection h with h
      subst h
      exact hc.2.2
    · exact ih h

theorem firstGoodIPv4_ne_empty (ifs : List (String × Option (List NetAddr))) (s : String)
    (h : firstGoodIPv4 ifs = some s) : s ≠ "" := by
  induction ifs with
  | nil => simp [firstGoodIPv4] at h
  | cons p rest ih =>
    obtain ⟨name, addrs?⟩ := p
    cases addrs? with
    | none => exact ih h
    | some addrs =>
      unfold firstGoodIPv4 at h
      cases hfg : firstGoodInList addrs with
      | some t =>
        rw [hfg] at h
        injection h with h
        subst h
        exact firstGoodInList_ne_empty addrs _ hfg
      | none =>
        rw [hfg] at h
        exact ih h

/-! ## Network reader: fold invariants -/

theorem interface_key_ne_ip (name : String) : ("Interface " ++ name) ≠ "IP Address" := by
  intro h
  have h2 := congrArg String.data h
  simp [String.data_append] at h2

theorem interface_key_ne_hostname (name : String) : ("Interface " ++ name) ≠ "Hostname" := by
  intro h
  have h2 := congrArg String.data h
  simp [String.data_append] at h2

theorem interface_key_ne_fqdn (name : String) : ("Interface " ++ name) ≠ "FQDN" := by
  intro h
  have h2 := congrArg String.data h
  simp [String.data_append] at h2

theorem lookupKey_addrStep_ne (name : String) (m : List (String × String)) (a : NetAddr)
    (k : String) (hip : "IP Address" ≠ k) (hif : "Interface " ++ name ≠ k) :
    lookupKey (addrStep name m a) k = lookupKey m k := by
  unfold addrStep addrIpStep
  split
  · split
    · rw [lookupKey_setKey_ne _ _ hip, lookupKey_setKey_ne _ _ hif]
    · rw [lookupKey_setKey_ne _ _ hif]
  · rfl

theorem lookupKey_addrList_ne (addrs : List NetAddr) (name : String)
    (m : List (String × String)) (k : String)
    (hip : "IP Address" ≠ k) (hif : "Interface " ++ name ≠ k) :
    lookupKey (addrs.foldl (addrStep name) m) k = lookupKey m k := by
  induction addrs generalizing m with
  | nil => rfl
  | cons a rest ih =>
    rw [List.foldl_cons, ih, lookupKey_addrStep_ne name m a k hip hif]

theorem lookupKey_ifaceFold_ne (ifs : List (String × Option (List NetAddr)))
    (m : List (String × String)) (k : String)
    (hip : "IP Address" ≠ k) (hif : ∀ name, "Interface " ++ name ≠ k) :
    lookupKey (ifs.foldl ifaceStep m) k = lookupKey m k := by
  induction ifs generalizing m with
  | nil => rfl
  | cons p rest ih =>
    obtain ⟨name, addrs?⟩ := p
    cases addrs? with
    | none => rw [List.foldl_cons]; exact ih m
    | some addrs =>
      rw [List.foldl_cons]
      show lookupKey (rest.foldl ifaceStep (addrs.foldl (addrStep name) m)) k = _
      rw [ih, lookupKey_addrList_ne addrs name m k hip (hif name)]

theorem ip_addrStep_truthy (name : String) (m : List (String × String)) (a : NetAddr)
    (h : truthyStr (lookupKey m "IP Address")) :
    lookupKey (addrStep name m a) "IP Address" = lookupKey m "IP Address" := by
  have hm1 : lookupKey (setKey m ("Interface " ++ name) a.address) "IP Address"
      = lookupKey m "IP Address" :=
    lookupKey_setKey_ne _ _ (interface_key_ne_ip name)
  unfold addrStep addrIpStep
  split
  · rw [hm1, if_neg (fun hc => hc.1 h)]
    exact hm1
  · rfl

theorem ip_addrList_truthy (addrs : List NetAddr) (name : String)
    (m : List (String × String)) (h : truthyStr (lookupKey m "IP Address")) :
    lookupKey (addrs.foldl (addrStep name) m) "IP Address" = lookupKey m "IP Address" := by
  induction addrs generalizing m with
  | nil => rfl
  | cons a rest ih =>
    have h1 := ip_addrStep_truthy name m a h
    rw [List.foldl_cons, ih _ (by rw [h1]; exact h), h1]

theorem ip_ifaceFold_truthy (ifs : List (String × Option (List NetAddr)))
    (m : List (String × String)) (h : truthyStr (lookupKey m "IP Address")) :
    lookupKey (ifs.foldl ifaceStep m) "IP Address" = lookupKey m "IP Address" := by
  induction ifs generalizing m with
  | nil => rfl
  | cons p rest ih =>
    obtain ⟨name, addrs?⟩ := p
    cases addrs? with
    | none => rw [List.foldl_cons]; exact ih m h
    | some addrs =>
      have h1 := ip_addrList_truthy addrs name m h
      rw [List.foldl_cons]
      show lookupKey (rest.foldl ifaceStep (addrs.foldl (addrStep name) m)) _ = _
      rw [ih _ (by rw [h1]; exact h), h1]

theorem ip_addrList (addrs : List NetAddr) (name : String) (m : List (String × String))
    (h : ¬ truthyStr (lookupKey m "IP Address")) :
    (∀ s, firstGoodInList addrs = some s →
      lookupKey (addrs.foldl (addrStep name) m) "IP Address" = some s) ∧
    (firstGoodInList addrs = none →
      ¬ truthyStr (lookupKey (addrs.foldl (addrStep name) m) "IP Address")) := by
  induction addrs generalizing m with
  | nil => exact ⟨fun s hs => by simp [firstGoodInList] at hs, fun _ => h⟩
  | cons a rest ih =>
    have hm1 : lookupKey (setKey m ("Interface " ++ name) a.address) "IP Address"
        = lookupKey m "IP Address" :=
      lookupKey_setKey_ne _ _ (interface_key_ne_ip name)
    rw [List.foldl_cons]
    by_cases hF : a.family = "IPv4"
    · by_cases hL : a.address = "127.0.0.1"
      · have hstep : addrStep name m a = setKey m ("Interface " ++ name) a.address := by
          unfold addrStep addrIpStep
          rw [if_pos hF, if_neg (fun hc => hc.2 hL)]
        have hfg : firstGoodInList (a :: rest) = firstGoodInList rest := by
          rw [firstGoodInList, if_neg (fun hc => hc.2.1 hL)]
        rw [hstep, hfg]
        exact ih _ (by rw [hm1]; exact h)
      · have hstep : addrStep name m a =
            setKey (setKey m ("Interface " ++ name) a.address) "IP Address" a.address := by
          unfold addrStep addrIpStep
          rw [if_pos hF, if_pos ⟨by rw [hm1]; exact h, hL⟩]
        have hip : lookupKey (addrStep name m a) "IP Address" = some a.address := by
          rw [hstep, lookupKey_setKey_self]
        by_cases hE : a.address = ""
        · have hfg : firstGoodInList (a :: rest) = firstGoodInList rest := by
            rw [firstGoodInList, if_neg (fun hc => hc.2.2 hE)]
          rw [hfg]
          exact ih _ (by rw [hip, hE]; simp [truthyStr])
        · have hfg : firstGoodInList (a :: rest) = some a.address := by
            rw [firstGoodInList, if_pos ⟨hF, hL, hE⟩]
          rw [hfg]
          constructor
          · intro s hs
            injection hs with hs
            subst hs
            rw [ip_addrList_truthy rest name _ (by rw [hip]; simp [truthyStr, hE]), hip]
          · intro hnone
            simp at hnone
    · have hstep : addrStep name m a = m := by
        unfold addrStep
        rw [if_neg hF]
      have hfg : firstGoodInList (a :: rest) = firstGoodInList rest := by
        rw [firstGoodInList, if_neg (fun hc => hF hc.1)]
      rw [hstep, hfg]
      exact ih m h

theorem ip_ifaceFold (ifs : List (String × Option (List NetAddr)))
    (m : List (String × String)) (h : ¬ truthyStr (lookupKey m "IP Address")) :
    (∀ s, firstGoodIPv4 ifs = some s →
      lookupKey (ifs.foldl ifaceStep m) "IP Address" = some s) ∧
    (firstGoodIPv4 ifs = none →
      ¬ truthyStr (lookupKey (ifs.foldl ifaceStep m) "IP Address")) := by
  induction ifs generalizing m with
  | nil => exact ⟨fun s hs => by simp [firstGoodIPv4] at hs, fun _ => h⟩
  | cons p rest ih =>
    obtain ⟨name, addrs?⟩ := p
    rw [List.foldl_cons]
    cases addrs? with
    | none => exact ih m h
    | some addrs =>
      have hal := ip_addrList addrs name m h
      show (∀ s, firstGoodIPv4 ((name, some addrs) :: rest) = some s →
          lookupKey (rest.foldl ifaceStep (addrs.foldl (addrStep name) m)) "IP Address" = some s) ∧ _
      cases hfg : firstGoodInList addrs with
      | some t =>
        have hip := hal.1 t hfg
        have ht := firstGoodInList_ne_empty addrs t hfg
        have hfg2 : firstGoodIPv4 ((name, some addrs) :: rest) = some t := by
          rw [firstGoodIPv4, hfg]
        rw [hfg2]
        constructor
        · intro s hs
          injection hs with hs
          subst hs
          rw [ip_ifaceFold_truthy rest _ (by rw [hip]; simp [truthyStr, ht]), hip]
        · intro hnone
          simp at hnone
      | none =>
        have h' := hal.2 hfg
        have hfg2 : firstGoodIPv4 ((name, some addrs) :: rest) = firstGoodIPv4 rest := by
          rw [firstGoodIPv4, hfg]
        rw [hfg2]
        exact ih _ h'

/-! ## Claims about the orchestration metadata reader -/

/-- C3: for every environment-variable table and every outcome of the
filesystem marker check, `getKubernetesMetadata` returns a non-empty map
that contains the `In Kubernetes` presence field (with value `Yes` or
`No`, per the marker check); it never returns `null`. -/
theorem getKubernetesMetadata_never_null (env : List (String × String)) (fs : Bool) :
    ∃ m, getKubernetesMetadata env fs = some m ∧ m ≠ [] ∧
      lookupKey m "In Kubernetes" = some (if fs then "Yes" else "No") := by
  have hne := setKey_ne_nil (k8sScan env) "In Kubernetes" (if fs then "Yes" else "No")
  refine ⟨_, ?_, hne, lookupKey_setKey_self _ _ _⟩
  unfold getKubernetesMetadata
  simp [List.length_pos.mpr hne]

/-- C7: with `POD_NAME=worker-1`, `POD_NAMESPACE=default`, no other
allowlisted variable set and no secrets directory, the reader returns
exactly the three-entry map of the scenario, in allowlist order. -/
theorem getKubernetesMetadata_pod_scenario :
    getKubernetesMetadata [("POD_NAME", "worker-1"), ("POD_NAMESPACE", "default")] false =
      some [("Pod Name", "worker-1"), ("Pod Namespace", "default"), ("In Kubernetes", "No")] := by
  decide

/-! ## Claims about the resource reader -/

/-- C5: when the disk-size query returns an empty list and no facility
raises, the zero-valued default disk record makes the disk fields read
`0.00 GB` / `0.00 GB` / `0.00%`, and no `Error` key is present. -/
theorem getSystemResources_empty_disks (e : ResEnv) (l : ℚ) (m : MemStats)
    (h1 : e.currentLoad = .ok l) (h2 : e.mem = .ok m) (h3 : e.fsSize = .ok []) :
    lookupKey (getSystemResources e) "Disk Total" = some "0.00 GB" ∧
    lookupKey (getSystemResources e) "Disk Used" = some "0.00 GB" ∧
    lookupKey (getSystemResources e) "Disk Percent" = some "0.00%" ∧
    lookupKey (getSystemResources e) "Error" = none := by
  simp [getSystemResources, h1, h2, h3, lookupKey, toFixed2_zero]

theorem getSystemResources_empty_disks_witness :
    lookupKey (getSystemResources ⟨.ok 25, [], .ok ⟨8, 4⟩, .ok []⟩) "Disk Total" =
        some "0.00 GB" ∧
    lookupKey (getSystemResources ⟨.ok 25, [], .ok ⟨8, 4⟩, .ok []⟩) "Disk Used" =
        some "0.00 GB" ∧
    lookupKey (getSystemResources ⟨.ok 25, [], .ok ⟨8, 4⟩, .ok []⟩) "Disk Percent" =
        some "0.00%" ∧
    lookupKey (getSystemResources ⟨.ok 25, [], .ok ⟨8, 4⟩, .ok []⟩) "Error" = none :=
  getSystemResources_empty_disks _ 25 ⟨8, 4⟩ rfl rfl rfl

/-- C6: with memory total 8 GiB and used 4 GiB exactly (and no facility
raising), `Memory Percent` reads `50.00%` and `Memory Used` reads
`4.00 GB`; in general `Memory Used` is the used byte count divided by
`2^30` under `toFixed(2)` with the `GB` suffix, and `Memory Percent` is
`used / total * 100` under `toFixed(2)` with the `%` suffix. -/
theorem getSystemResources_memory (e : ResEnv) (l : ℚ) (m : MemStats) (d : List DiskStats)
    (h1 : e.currentLoad = .ok l) (h2 : e.mem = .ok m) (h3 : e.fsSize = .ok d) :
    (m = ⟨8 * 2^30, 4 * 2^30⟩ →
      lookupKey (getSystemResources e) "Memory Percent" = some "50.00%" ∧
      lookupKey (getSystemResources e) "Memory Used" = some "4.00 GB") ∧
    lookupKey (getSystemResources e) "Memory Used" =
      some (toFixed2 (m.used / 2 ^ 30) ++ " GB") ∧
    lookupKey (getSystemResources e) "Memory Percent" =
      some (toFixed2 (m.used / m.total * 100) ++ "%") := by
  have h30 : (1024 : ℚ) ^ 3 = 2 ^ 30 := by norm_num
  refine ⟨?_, ?_, ?_⟩
  · rintro rfl
    simp [getSystemResources, h1, h2, h3, lookupKey, toFixed2_4GiB, toFixed2_half]
  · simp [getSystemResources, h1, h2, h3, lookupKey, h30]
  · simp [getSystemResources, h1, h2, h3, lookupKey]

theorem getSystemResources_memory_witness :
    lookupKey (getSystemResources ⟨.ok 0, [], .ok ⟨8 * 2^30, 4 * 2^30⟩, .ok []⟩)
        "Memory Percent" = some "50.00%" ∧
    lookupKey (getSystemResources ⟨.ok 0, [], .ok ⟨8 * 2^30, 4 * 2^30⟩, .ok []⟩)
        "Memory Used" = some "4.00 GB" :=
  (getSystemResources_memory _ 0 ⟨8 * 2^30, 4 * 2^30⟩ [] rfl rfl rfl).1 rfl

/-! ## Claims about the platform reader and stable key sets -/

/-- C8: `getPlatformInfo` always returns exactly the seven fixed platform
keys in order, and in the non-error branch `getSystemResources` always
returns exactly the eight fixed resource keys in order — both key sets
are therefore the same on every call. -/
theorem key_sets_stable :
    (∀ e : PlatEnv, (getPlatformInfo e).map Prod.fst =
      ["Platform", "System", "Release", "Version", "Machine", "Processor",
       "Node.js Version"]) ∧
    (∀ (e : ResEnv) (l : ℚ) (m : MemStats) (d : List DiskStats),
      e.currentLoad = .ok l → e.mem = .ok m → e.fsSize = .ok d →
      (getSystemResources e).map Prod.fst =
        ["CPU Usage", "CPU Count", "Memory Total", "Memory Used",
         "Memory Percent", "Disk Total", "Disk Used", "Disk Percent"]) := by
  refine ⟨fun e => rfl, fun e l m d h1 h2 h3 => ?_⟩
  simp [getSystemResources, h1, h2, h3]

theorem key_sets_stable_witness :
    (getPlatformInfo ⟨"Linux", "6.1.0", "ver", "x64", [], "v20.0.0"⟩).map Prod.fst =
      ["Platform", "System", "Release", "Version", "Machine", "Processor",
       "Node.js Version"] ∧
    (getSystemResources ⟨.ok 0, [], .ok ⟨1, 1⟩, .ok []⟩).map Prod.fst =
      ["CPU Usage", "CPU Count", "Memory Total", "Memory Used",
       "Memory Percent", "Disk Total", "Disk Used", "Disk Percent"] :=
  ⟨key_sets_stable.1 _, key_sets_stable.2 _ 0 ⟨1, 1⟩ [] rfl rfl rfl⟩

/-- C10: with an empty CPU list, `getPlatformInfo` still returns the full
seven-key map and the `Processor` entry falls back to `N/A` (the
optional-chained index is guarded). -/
theorem getPlatformInfo_no_cpus (e : PlatEnv) (h : e.cpus = []) :
    lookupKey (getPlatformInfo e) "Processor" = some "N/A" ∧
    (getPlatformInfo e).map Prod.fst =
      ["Platform", "System", "Release", "Version", "Machine", "Processor",
       "Node.js Version"] := by
  exact ⟨by simp [getPlatformInfo, lookupKey, h], rfl⟩

theorem getPlatformInfo_no_cpus_witness :
    lookupKey (getPlatformInfo ⟨"Linux", "6.1.0", "ver", "x64", [], "v20.0.0"⟩)
        "Processor" = some "N/A" ∧
    (getPlatformInfo ⟨"Linux", "6.1.0", "ver", "x64", [], "v20.0.0"⟩).map Prod.fst =
      ["Platform", "System", "Release", "Version", "Machine", "Processor",
       "Node.js Version"] :=
  getPlatformInfo_no_cpus _ rfl

/-! ## Claims about the network reader -/

/-- C9: in the non-error branch, the returned map's `FQDN` entry equals
its `Hostname` entry — both are the process hostname; no reverse-DNS
lookup is performed (no other source feeds either key). -/
theorem getNetworkInfo_fqdn_eq_hostname (e : NetEnv) (host : String)
    (ifs : List (String × Option (List NetAddr)))
    (hh : e.hostname = .ok host) (hi : e.interfaces = .ok ifs) :
    lookupKey (getNetworkInfo e) "FQDN" = some host ∧
    lookupKey (getNetworkInfo e) "Hostname" = some host := by
  have hb : ∀ k, "IP Address" ≠ k → (∀ name, "Interface " ++ name ≠ k) →
      lookupKey (getNetworkInfo e) k = lookupKey [("Hostname", host), ("FQDN", host)] k := by
    intro k h1 h2
    unfold getNetworkInfo
    rw [hh, hi]
    simp only []
    split
    · rw [lookupKey_setKey_ne _ _ h1, lookupKey_ifaceFold_ne ifs _ k h1 h2]
    · rw [lookupKey_ifaceFold_ne ifs _ k h1 h2]
  constructor
  · rw [hb "FQDN" (by decide) interface_key_ne_fqdn]; simp [lookupKey]
  · rw [hb "Hostname" (by decide) interface_key_ne_hostname]; simp [lookupKey]

theorem getNetworkInfo_fqdn_eq_hostname_witness :
    lookupKey (getNetworkInfo ⟨.ok "web-1", .ok [("eth0", some [⟨"IPv4", "10.1.2.3"⟩])]⟩)
        "FQDN" = some "web-1" ∧
    lookupKey (getNetworkInfo ⟨.ok "web-1", .ok [("eth0", some [⟨"IPv4", "10.1.2.3"⟩])]⟩)
        "Hostname" = some "web-1" :=
  getNetworkInfo_fqdn_eq_hostname _ "web-1" _ rfl rfl

/-- C2 (amended): in the non-error branch, `IP Address` is the first
IPv4 entry whose address is neither the loopback literal nor the empty
string, and `127.0.0.1` when there is no such entry. (The claim as
stated — the first non-loopback IPv4 with no non-emptiness proviso — is
refuted by the counterexample below: an empty-string address is falsy,
so `!networkInfo['IP Address']` lets a later address overwrite it.) -/
theorem getNetworkInfo_ip_selection (e : NetEnv) (host : String)
    (ifs : List (String × Option (List NetAddr)))
    (hh : e.hostname = .ok host) (hi : e.interfaces = .ok ifs) :
    lookupKey (getNetworkInfo e) "IP Address" =
      some ((firstGoodIPv4 ifs).getD "127.0.0.1") := by
  unfold getNetworkInfo
  rw [hh, hi]
  simp only []
  have h0 : ¬ truthyStr (lookupKey [("Hostname", host), ("FQDN", host)] "IP Address") := by
    simp [lookupKey, truthyStr]
  have hif := ip_ifaceFold ifs _ h0
  cases hfg : firstGoodIPv4 ifs with
  | some s =>
    have hip := hif.1 s hfg
    have hs := firstGoodIPv4_ne_empty ifs s hfg
    rw [if_neg (fun hc => hc (by rw [hip]; simp [truthyStr, hs])), hip]
    simp
  | none =>
    rw [if_pos (hif.2 hfg), lookupKey_setKey_self]
    simp

theorem getNetworkInfo_ip_selection_witness :
    lookupKey (getNetworkInfo ⟨.ok "h",
        .ok [("lo", some [⟨"IPv4", "127.0.0.1"⟩]), ("eth0", some [⟨"IPv4", "192.168.0.7"⟩])]⟩)
      "IP Address" =
      some ((firstGoodIPv4
        [("lo", some [⟨"IPv4", "127.0.0.1"⟩]),
         ("eth0", some [⟨"IPv4", "192.168.0.7"⟩])]).getD "127.0.0.1") :=
  getNetworkInfo_ip_selection _ "h" _ rfl rfl

/-- C2 (counterexample): with `eth0` reporting the IPv4 address `""` and
`eth1` reporting `10.0.0.1`, the first non-loopback IPv4 encountered is
`""`, yet the reader returns `10.0.0.1` — the claim as stated fails. -/
theorem getNetworkInfo_ip_counterexample :
    firstNonLoopbackIPv4
        [("eth0", some [⟨"IPv4", ""⟩]), ("eth1", some [⟨"IPv4", "10.0.0.1"⟩])] = some "" ∧
    lookupKey (getNetworkInfo ⟨.ok "host",
        .ok [("eth0", some [⟨"IPv4", ""⟩]), ("eth1", some [⟨"IPv4", "10.0.0.1"⟩])]⟩)
      "IP Address" = some "10.0.0.1" := by
  decide

/-! ## Claim about error containment in the two fallible readers -/

/-- C1: whichever underlying OS facility raises, each fallible reader
catches the error at its own boundary and returns exactly the single-key
map `{ Error: <stringified error> }`; being total Lean functions into
plain maps, neither reader can propagate an exception to the
aggregator. -/
theorem reader_errors_contained :
    (∀ (e : ResEnv) (msg : String), e.currentLoad = .error msg →
      getSystemResources e = [("Error", msg)]) ∧
    (∀ (e : ResEnv) (l : ℚ) (msg : String), e.currentLoad = .ok l → e.mem = .error msg →
      getSystemResources e = [("Error", msg)]) ∧
    (∀ (e : ResEnv) (l : ℚ) (m : MemStats) (msg : String),
      e.currentLoad = .ok l → e.mem = .ok m → e.fsSize = .error msg →
      getSystemResources e = [("Error", msg)]) ∧
    (∀ (e : NetEnv) (msg : String), e.hostname = .error msg →
      getNetworkInfo e = [("Error", msg)]) ∧
    (∀ (e : NetEnv) (host : String) (msg : String),
      e.hostname = .ok host → e.interfaces = .error msg →
      getNetworkInfo e = [("Error", msg)]) := by
  refine ⟨fun e msg h1 => ?_, fun e l msg h1 h2 => ?_, fun e l m msg h1 h2 h3 => ?_,
    fun e msg h1 => ?_, fun e host msg h1 h2 => ?_⟩
  · simp [getSystemResources, h1]
  · simp [getSystemResources, h1, h2]
  · simp [getSystemResources, h1, h2, h3]
  · simp [getNetworkInfo, h1]
  · simp [getNetworkInfo, h1, h2]

theorem reader_errors_contained_witness :
    getSystemResources ⟨.error "cpu gone", [], .ok ⟨1, 1⟩, .ok []⟩ =
        [("Error", "cpu gone")] ∧
    getSystemResources ⟨.ok 0, [], .error "mem gone", .ok []⟩ = [("Error", "mem gone")] ∧
    getSystemResources ⟨.ok 0, [], .ok ⟨1, 1⟩, .error "disk gone"⟩ =
        [("Error", "disk gone")] ∧
    getNetworkInfo ⟨.error "hostname gone", .ok []⟩ = [("Error", "hostname gone")] ∧
    getNetworkInfo ⟨.ok "h", .error "ifs gone"⟩ = [("Error", "ifs gone")] :=
  ⟨reader_errors_contained.1 _ _ rfl,
   reader_errors_contained.2.1 _ 0 _ rfl rfl,
   reader_errors_contained.2.2.1 _ 0 ⟨1, 1⟩ _ rfl rfl rfl,
   reader_errors_contained.2.2.2.1 _ _ rfl,
   reader_errors_contained.2.2.2.2 _ "h" _ rfl rfl⟩

/-! ## Claim about the request reader and the aggregator -/

/-- C4: the snapshot's `request` field is absent exactly when no request
was supplied; when one is supplied it carries all five subfields, with an
empty-but-present `Headers` map for a header-less request, and absent
`x-forwarded-for` or `user-agent` headers yielding `"N/A"`. -/
theorem getAllInfo_request_shape :
    (∀ (w : World) (req : Option Request), (getAllInfo w req).request = none ↔ req = none) ∧
    (∀ (w : World) (r : Request), (getAllInfo w (some r)).request = some (getRequestInfo r)) ∧
    (∀ r : Request, (getRequestInfo r).map Prod.fst =
      ["Method", "Path", "Remote Address", "User Agent", "Headers"]) ∧
    (∀ r : Request, r.headers = [] →
      lookupKey (getRequestInfo r) "Headers" = some (JVal.obj [])) ∧
    (∀ r : Request, headersGet r.headers "x-forwarded-for" = none →
      lookupKey (getRequestInfo r) "Remote Address" = some (JVal.str "N/A")) ∧
    (∀ r : Request, headersGet r.headers "user-agent" = none →
      lookupKey (getRequestInfo r) "User Agent" = some (JVal.str "N/A")) := by
  refine ⟨fun w req => ?_, fun w r => rfl, fun r => rfl,
    fun r h => ?_, fun r h => ?_, fun r h => ?_⟩
  · cases req <;> simp [getAllInfo]
  · simp [getRequestInfo, lookupKey, h]
  · simp [getRequestInfo, lookupKey, orNA, h]
  · simp [getRequestInfo, lookupKey, orNA, h]

theorem getAllInfo_request_shape_witness :
    ((getAllInfo ⟨"2026-10-11T00:00:00.000Z", "host-1", ⟨.ok 0, [], .ok ⟨1, 1⟩, .ok []⟩,
        ⟨.ok "host-1", .ok []⟩, ⟨"Linux", "6.1", "v", "x64", [], "v20"⟩, [], false⟩
        none).request = none ↔ (none : Option Request) = none) ∧
    (getAllInfo ⟨"2026-10-11T00:00:00.000Z", "host-1", ⟨.ok 0, [], .ok ⟨1, 1⟩, .ok []⟩,
        ⟨.ok "host-1", .ok []⟩, ⟨"Linux", "6.1", "v", "x64", [], "v20"⟩, [], false⟩
        (some ⟨"GET", "/api/info", []⟩)).request =
      some (getRequestInfo ⟨"GET", "/api/info", []⟩) ∧
    (getRequestInfo ⟨"GET", "/api/info", []⟩).map Prod.fst =
      ["Method", "Path", "Remote Address", "User Agent", "Headers"] ∧
    lookupKey (getRequestInfo ⟨"GET", "/api/info", []⟩) "Headers" = some (JVal.obj []) ∧
    lookupKey (getRequestInfo ⟨"GET", "/api/info", []⟩) "Remote Address" =
      some (JVal.str "N/A") ∧
    lookupKey (getRequestInfo ⟨"GET", "/api/info", []⟩) "User Agent" =
      some (JVal.str "N/A") :=
  ⟨getAllInfo_request_shape.1 _ none,
   getAllInfo_request_shape.2.1 _ _,
   getAllInfo_request_shape.2.2.1 _,
   getAllInfo_request_shape.2.2.2.1 _ rfl,
   getAllInfo_request_shape.2.2.2.2.1 _ rfl,
   getAllInfo_request_shape.2.2.2.2.2 _ rfl⟩
